import Mathlib

/-!
Verification of the training/evaluation core of the DeeplabV3-for-Corals
repository (src/training.py), shallowly embedded in Lean 4.

Conventions of the embedding:
- Python/numpy floating point numbers are modelled by the rationals `ℚ`
  (all the arithmetic at stake here is exact: sums, differences, products,
  divisions).
- Pixel labels are integers `ℤ`; the ignore sentinel is the label `-1`
  (the `ignore_index=-1` of the source).
- Fallible Python code (divisions that can raise `ZeroDivisionError`,
  file reads that can raise) is modelled with `Except`.
- The opaque numerical collaborators that are not part of this repository
  (the network, the module of loss functions `losses.py`, torch and
  sklearn primitives) are modelled from the specification where a claim
  needs their behaviour, and are otherwise abstracted to the values they
  return.
-/

/-! ## Loss scheduling (trainingNetwork, src/training.py lines 285-299) -/

/-- The DICE+BOUNDARY branch of the loss dispatch in `trainingNetwork`
(src/training.py lines 291-299).  `gdl` is the value returned by
`losses.generalized_dice_loss(outputs, labels_batch, w_for_GDL)`, `dice` the
value of `losses.dice_loss(outputs, labels_batch)` and `surface` the value of
`losses.surface_loss(labels_batch, outputs)`, all on the same predictions and
ground truth; the scheduler itself is translated literally from the source:
before the switch epoch the generalized dice loss is returned, from the
switch epoch on the blend `alpha * dice + (1 - alpha) * 0.3 * surface` with
`alpha = 1 - (epoch - epochs_switch)/10` clamped below at `0`. -/
def diceBoundaryLoss (epochsSwitch epoch : ℕ) (gdl dice surface : ℚ) : ℚ :=
  if epoch < epochsSwitch then gdl
  else
    let a : ℚ := 1 - ((epoch : ℚ) - (epochsSwitch : ℚ)) / 10
    let alpha : ℚ := if a < 0 then 0 else a
    alpha * dice + (1 - alpha) * (3 / 10) * surface

/-- Modelled from the spec: the generalized Dice loss of `losses.py` (a file
that is not under src/), following the description of §4.2 and the glossary
of the spec: a Dice-coefficient loss over per-pixel class probabilities with
one weight per class.  `probs` gives the per-pixel class probabilities of the
network output, `gt` the per-pixel ground-truth class; for each class the
intersection is the probability mass assigned to pixels of that class and
the totals are the probability mass plus the ground-truth pixel count. -/
def generalized_dice_loss (C : ℕ) (w : Fin C → ℚ) (probs : List (Fin C → ℚ))
    (gt : List (Fin C)) : ℚ :=
  let inter : Fin C → ℚ := fun c =>
    ((probs.zip gt).map (fun pg => if pg.2 = c then pg.1 c else 0)).sum
  let total : Fin C → ℚ := fun c =>
    (probs.map (fun p => p c)).sum + (gt.countP (fun t => t == c) : ℚ)
  1 - 2 * (Finset.univ.sum fun c => w c * inter c) /
    (Finset.univ.sum fun c => w c * total c)

/-- Modelled from the spec: the plain (unweighted) Dice loss
`losses.dice_loss` of `losses.py`, i.e. the same Dice coefficient with all
class weights equal to one. -/
def dice_loss (C : ℕ) (probs : List (Fin C → ℚ)) (gt : List (Fin C)) : ℚ :=
  generalized_dice_loss C (fun _ => 1) probs gt

/-! ## Class weights for the generalized dice loss
(trainingNetwork, src/training.py lines 260-264) -/

/-- The computation of `w_for_GDL` in `trainingNetwork` (src/training.py
lines 260-264), translated literally: drop the background entry (index 0) of
the per-class weight vector, take `freq = 1.0 / weights`, then
`w = 1.0 / (freq * freq)`, then `w = w / w.sum() + 0.00001` — note that numpy
adds the constant `0.00001` to EVERY entry of the normalized vector. -/
def gdlWeights (weights : List ℚ) : List ℚ :=
  let ws := weights.drop 1
  let freq := ws.map (fun x => 1 / x)
  let w := freq.map (fun x => 1 / (x * x))
  w.map (fun x => x / w.sum + 1 / 100000)

/-! ## Evaluation metrics (evaluateNetwork, src/training.py lines 49-148) -/

/-- One evaluated mini-batch: the flattened ground-truth labels, the
flattened argmax predictions of the network on that batch, and the value of
the (weighted cross-entropy) loss the evaluator computes on the batch.  The
network itself is opaque: its predictions and its loss value are the data of
the batch. -/
structure EvalBatch where
  labels : List ℤ
  preds : List ℤ
  loss : ℚ
deriving DecidableEq

/-- The flattened (true label, predicted label) pixel pairs of a whole
evaluation pass, batches concatenated in order, exactly as the lists
`ytrue_list` and `ypred_list` of `evaluateNetwork` accumulate them. -/
def allPairs (batches : List EvalBatch) : List (ℤ × ℤ) :=
  (batches.map (fun b => b.labels.zip b.preds)).flatten

/-- Modelled from the spec and the documented semantics of
`sklearn.metrics.confusion_matrix(true, pred, labels=range(nclasses))`
(src/training.py line 113): entry `(i, j)` counts the pixels whose true
label is `i` and predicted label is `j`; a pixel whose true label is not in
`0 .. nclasses-1` (in particular the ignore sentinel `-1`) is counted in no
entry.  Accumulation over batches is the count over the concatenated pairs. -/
def confusionMatrix (n : ℕ) (pairs : List (ℤ × ℤ)) (i j : Fin n) : ℕ :=
  pairs.countP (fun tp => tp.1 == (i.val : ℤ) && tp.2 == (j.val : ℤ))

/-- Sum of all entries of the accumulated confusion matrix
(`CM.sum()` at src/training.py line 141). -/
def cmTotal (n : ℕ) (pairs : List (ℤ × ℤ)) : ℕ :=
  Finset.univ.sum fun i : Fin n => Finset.univ.sum fun j : Fin n =>
    confusionMatrix n pairs i j

/-- Sum of the diagonal of the accumulated confusion matrix
(`np.sum(np.diag(CM))` at src/training.py line 142). -/
def cmDiag (n : ℕ) (pairs : List (ℤ × ℤ)) : ℕ :=
  Finset.univ.sum fun i : Fin n => confusionMatrix n pairs i i

/-- Row sum of the accumulated confusion matrix (`CM.sum(axis=1)` at
src/training.py line 135). -/
def cmRowSum (n : ℕ) (pairs : List (ℤ × ℤ)) (i : Fin n) : ℕ :=
  Finset.univ.sum fun j : Fin n => confusionMatrix n pairs i j

/-- Number of pixel pairs whose true and predicted label both equal `c`. -/
def interCount (pairs : List (ℤ × ℤ)) (c : ℤ) : ℕ :=
  pairs.countP (fun tp => tp.1 == c && tp.2 == c)

/-- Number of pixel pairs whose true or predicted label equals `c`. -/
def unionCount (pairs : List (ℤ × ℤ)) (c : ℤ) : ℕ :=
  pairs.countP (fun tp => tp.1 == c || tp.2 == c)

/-- Number of pixel pairs whose true label equals `c` (the support of class
`c` in the ground truth). -/
def supportCount (pairs : List (ℤ × ℤ)) (c : ℤ) : ℕ :=
  pairs.countP (fun tp => tp.1 == c)

/-- The labels present in either the true or the predicted array; these are
the classes `sklearn.metrics.jaccard_score` scores when no label list is
passed. -/
def presentLabels (pairs : List (ℤ × ℤ)) : List ℤ :=
  (pairs.map Prod.fst ++ pairs.map Prod.snd).dedup

/-- Per-label Jaccard index (intersection over union), `0` for a label with
empty union. -/
def labelJaccard (pairs : List (ℤ × ℤ)) (c : ℤ) : ℚ :=
  if unionCount pairs c = 0 then 0
  else (interCount pairs c : ℚ) / (unionCount pairs c : ℚ)

/-- Modelled from the spec and the documented semantics of
`sklearn.metrics.jaccard_score(ytrue, ypred, average=weighted)`
(src/training.py line 132): the per-label Jaccard indices of every label
present in either array, averaged with the ground-truth supports as
weights. -/
def weightedJaccard (pairs : List (ℤ × ℤ)) : ℚ :=
  let ls := presentLabels pairs
  let tot : ℕ := (ls.map (supportCount pairs)).sum
  if tot = 0 then 0
  else ((ls.map (fun c => (supportCount pairs c : ℚ) * labelJaccard pairs c)).sum) / (tot : ℚ)

/-- Modelled from the spec: the weighted cross-entropy loss of
`torch.nn.CrossEntropyLoss(weight=class_weights, ignore_index=-1)`
(src/training.py lines 72-73): pixels are given as
(true label, per-pixel cross-entropy value); every pixel whose true label is
the ignore sentinel `-1` is dropped, the rest are averaged with the class
weight of their true label. -/
def crossEntropyLoss (weight : ℤ → ℚ) (pixels : List (ℤ × ℚ)) : ℚ :=
  let valid := pixels.filter (fun p => !(p.1 == -1))
  ((valid.map (fun p => weight p.1 * p.2)).sum) /
    ((valid.map (fun p => weight p.1)).sum)

/-- The exceptions `evaluateNetwork` can raise: the `ZeroDivisionError` of
`sum(loss_values) / len(loss_values)` (src/training.py line 123) when the
loader yields zero batches — the failure the spec names `EmptySplitError` —
and the `ZeroDivisionError` of the accuracy `pixels_correct / pixels_total`
(line 143) when the confusion matrix is all zero. -/
inductive EvalError where
  | emptySplit
  | zeroPixelTotal
deriving DecidableEq

/-- The metrics dictionary `evaluateNetwork` returns (src/training.py
line 146). -/
structure EvalMetrics (n : ℕ) where
  confMatrix : Fin n → Fin n → ℕ
  normConfMatrix : Fin n → Fin n → ℚ
  accuracy : ℚ
  jaccardScore : ℚ

/-- The true/predicted label buffers `ytrue_list`/`ypred_list` of
`evaluateNetwork` at the end of the pass: they are extended per batch only
when `flagTrainingDataset` is false (src/training.py lines 104-106). -/
def evalBuffers (batches : List EvalBatch) (flagTrainingDataset : Bool) :
    List ℤ × List ℤ :=
  if flagTrainingDataset then ([], [])
  else ((batches.map EvalBatch.labels).flatten, (batches.map EvalBatch.preds).flatten)

/-- The body of `evaluateNetwork` (src/training.py lines 49-148) after the
per-batch network calls: the mean of the per-batch losses (raising on an
empty loader, line 123), the jaccard score of the flattened buffers — the
sentinel `0.0` when `flagTrainingDataset` is set (lines 125-132) —, the
accumulated confusion matrix, its row-normalized form (rows with zero sum
left at `0`, numpy produces NaN there without raising), and the accuracy
`trace / total` (line 143, raising when the total is zero). -/
def evaluateNetwork (n : ℕ) (batches : List EvalBatch)
    (flagTrainingDataset : Bool) : Except EvalError (EvalMetrics n × ℚ) :=
  if batches.length = 0 then Except.error EvalError.emptySplit
  else
    let meanLoss : ℚ := (batches.map EvalBatch.loss).sum / (batches.length : ℚ)
    let pairs := allPairs batches
    let jaccard : ℚ := if flagTrainingDataset then 0 else weightedJaccard pairs
    let cm := confusionMatrix n pairs
    let norm : Fin n → Fin n → ℚ := fun i j =>
      if cmRowSum n pairs i = 0 then 0
      else (cm i j : ℚ) / (cmRowSum n pairs i : ℚ)
    if cmTotal n pairs = 0 then Except.error EvalError.zeroPixelTotal
    else
      Except.ok
        ({ confMatrix := cm, normConfMatrix := norm,
           accuracy := (cmDiag n pairs : ℚ) / (cmTotal n pairs : ℚ),
           jaccardScore := jaccard }, meanLoss)

/-! ## Checkpointing (trainingNetwork, src/training.py lines 256-343) -/

/-- The best-so-far state of the training loop together with the history of
checkpoint writes performed: `best_accuracy` and `best_jaccard_score` start
at `0.0` (src/training.py lines 256-257), `checkpointsWritten` records the
validation jaccard score at each write of the network weights plus the
validation and training metric reports (lines 334-343). -/
structure CheckpointState where
  bestAccuracy : ℚ
  bestJaccard : ℚ
  checkpointsWritten : List ℚ
deriving DecidableEq

/-- The checkpoint decision of one validation pass (src/training.py lines
334-343): when the validation jaccard score strictly exceeds the best one so
far, the bests are updated and the checkpoint (weights plus the two metric
reports) is written; otherwise nothing is touched. -/
def validationStep (st : CheckpointState) (accuracy jaccard : ℚ) :
    CheckpointState :=
  if st.bestJaccard < jaccard then
    { bestAccuracy := accuracy, bestJaccard := jaccard,
      checkpointsWritten := st.checkpointsWritten ++ [jaccard] }
  else st

/-- The initial best-so-far state of a run (src/training.py lines 256-257). -/
def initialCheckpointState : CheckpointState :=
  { bestAccuracy := 0, bestJaccard := 0, checkpointsWritten := [] }

/-- The successive validation passes of one run, folded over the list of
(accuracy, jaccard) results of the validation split. -/
def runValidationPasses (passes : List (ℚ × ℚ)) : CheckpointState :=
  passes.foldl (fun st p => validationStep st p.1 p.2) initialCheckpointState

/-! ## Gradient accumulation (trainingNetwork, src/training.py lines
268-306) -/

/-- One mini-batch of the inner training loop (src/training.py lines
273-306) acting on the pair (number of mini-batch gradients currently
accumulated, sizes of the accumulations consumed by the optimizer steps so
far): `loss.backward()` adds one accumulated gradient, and when
`(i+1) % batch_mult == 0` the optimizer steps on the accumulation and
`optimizer.zero_grad()` resets it (lines 304-306). -/
def accumStep (batchMult : ℕ) (st : ℕ × List ℕ) (i : ℕ) : ℕ × List ℕ :=
  let acc := st.1 + 1
  if (i + 1) % batchMult = 0 then (0, st.2 ++ [acc]) else (acc, st.2)

/-- One epoch of the inner training loop over `n` mini-batches, starting
from the `optimizer.zero_grad()` of the epoch head (src/training.py line
271): the final accumulated-gradient count and the accumulation sizes at
which the optimizer stepped, in order. -/
def gradLoop (batchMult : ℕ) : ℕ → ℕ × List ℕ
  | 0 => (0, [])
  | n + 1 => accumStep batchMult (gradLoop batchMult n) n

/-! ## Classifier metadata (readClassifierInfo / writeClassifierInfo,
src/training.py lines 151-180) -/

/-- A JSON value, as far as the classifier metadata file needs one.
`json.dumps` followed by `json.load` is the identity on this tree (the spec
fixes float precision to the underlying JSON numeric encoding, and Python
round-trips its floats exactly). -/
inductive JValue where
  | jstr (s : String)
  | jnum (q : ℚ)
  | jint (n : ℤ)
  | jarr (xs : List JValue)
  | jobj (fields : List (String × JValue))

/-- The classifier metadata of a dataset: the fields `writeClassifierInfo`
persists (src/training.py lines 166-180). -/
structure ClassifierRecord where
  numClasses : ℤ
  weights : List ℚ
  datasetAverage : List ℚ
  dictTarget : List (String × ℤ)

/-- The dataset fields `readClassifierInfo` populates (src/training.py
lines 160-163); `none` models a field left unset. -/
structure DatasetFields where
  num_classes : Option ℤ
  weights : Option (List ℚ)
  dataset_average : Option (List ℚ)
  dict_target : Option (List (String × ℤ))

/-- A dataset object none of whose metadata fields has been populated. -/
def emptyDatasetFields : DatasetFields :=
  { num_classes := none, weights := none, dataset_average := none,
    dict_target := none }

/-- What `open(filename)` followed by `json.load` can produce: the file is
missing (`open` raises `FileNotFoundError`), the file holds malformed JSON
(`json.load` raises `json.JSONDecodeError`), or a parsed JSON object. -/
inductive ReadFile where
  | missing
  | malformed
  | parsed (obj : List (String × JValue))

/-- The Python exceptions `readClassifierInfo` can let escape: the
`FileNotFoundError` of `open` (src/training.py line 153) and the
`KeyError`/type failure of indexing the loaded dictionary (lines 160-163). -/
inductive PyError where
  | fileNotFound
  | keyOrTypeError
deriving DecidableEq

/-- Decode a JSON array of numbers into the list `np.array` is built from. -/
def decodeNumList : List JValue → Option (List ℚ)
  | [] => some []
  | JValue.jnum q :: rest => (decodeNumList rest).map (fun l => q :: l)
  | _ => none

/-- Decode a JSON object of integer values into a class-name dictionary. -/
def decodeClassDict : List (String × JValue) → Option (List (String × ℤ))
  | [] => some []
  | (s, JValue.jint k) :: rest => (decodeClassDict rest).map (fun l => (s, k) :: l)
  | _ => none

/-- `writeClassifierInfo` (src/training.py lines 166-180): the JSON object
written to the file, keys in source order. -/
def writeClassifierInfo (classifierName : String) (ds : ClassifierRecord) :
    List (String × JValue) :=
  [("Classifier Name", JValue.jstr classifierName),
   ("Weights", JValue.jarr (ds.weights.map JValue.jnum)),
   ("Average", JValue.jarr (ds.datasetAverage.map JValue.jnum)),
   ("Num. Classes", JValue.jint ds.numClasses),
   ("Classes", JValue.jobj (ds.dictTarget.map (fun p => (p.1, JValue.jint p.2))))]

/-- `readClassifierInfo` (src/training.py lines 151-163), translated
literally: `open` on a missing file raises `FileNotFoundError` (the
`try` block only starts afterwards and only catches `json.JSONDecodeError`);
on malformed JSON the handler prints and returns, leaving every dataset
field untouched; on a parsed object the four fields are populated from the
keys `Num. Classes`, `Weights`, `Average` and `Classes`. -/
def readClassifierInfo (file : ReadFile) (dataset : DatasetFields) :
    Except PyError DatasetFields :=
  match file with
  | ReadFile.missing => Except.error PyError.fileNotFound
  | ReadFile.malformed => Except.ok dataset
  | ReadFile.parsed obj =>
    match obj.lookup "Num. Classes", obj.lookup "Weights",
        obj.lookup "Average", obj.lookup "Classes" with
    | some (JValue.jint nc), some (JValue.jarr ws), some (JValue.jarr avg),
        some (JValue.jobj cls) =>
      match decodeNumList ws, decodeNumList avg, decodeClassDict cls with
      | some wl, some al, some cl =>
        Except.ok { num_classes := some nc, weights := some wl,
                    dataset_average := some al, dict_target := some cl }
      | _, _, _ => Except.error PyError.keyOrTypeError
    | _, _, _, _ => Except.error PyError.keyOrTypeError

/-! ## Concrete inputs for the counterexamples -/

/-- A concrete two-class network output used to separate the weighted and
the plain Dice losses: two pixels, both predicted as class 0 with
certainty. -/
def cexProbs : List (Fin 2 → ℚ) :=
  [fun c => if c = 0 then 1 else 0, fun c => if c = 0 then 1 else 0]

/-- A concrete ground truth for `cexProbs`: one pixel of each class. -/
def cexGt : List (Fin 2) := [0, 1]

/-- A concrete configured GDL class-weight vector: the `w_for_GDL` computed
by `trainingNetwork` (via `gdlWeights`) from the full class-weight vector
`[1/4, 1/2, 1/4]`, read as a function on the two non-background classes. -/
def cexW : Fin 2 → ℚ := fun c => (gdlWeights [1/4, 1/2, 1/4]).getD c.val 0

/-! ## Helper lemmas -/

/-- When `m` divides `n + 1`, the residue of `n` is the predecessor of `m`. -/
theorem mod_add_one_of_dvd (m n : ℕ) (h : m ∣ n + 1) : n % m + 1 = m := by
  obtain ⟨k, hk⟩ := h
  cases m with
  | zero => rw [Nat.zero_mul] at hk; omega
  | succ m =>
    cases k with
    | zero => rw [Nat.mul_zero] at hk; omega
    | succ k =>
      rw [Nat.mul_succ] at hk
      have hn : n = (m + 1) * k + m := by omega
      rw [hn, Nat.mul_add_mod, Nat.mod_eq_of_lt (by omega)]

/-- When `m` does not divide `n + 1`, the residue just increments. -/
theorem succ_mod_of_not_dvd (m n : ℕ) (h : ¬ m ∣ n + 1) :
    (n + 1) % m = n % m + 1 := by
  cases m with
  | zero => simp [Nat.mod_zero]
  | succ m =>
    have hdm := Nat.div_add_mod n (m + 1)
    have hlt : n % (m + 1) < m + 1 := Nat.mod_lt _ (Nat.succ_pos m)
    have hne : n % (m + 1) + 1 ≠ m + 1 := by
      intro he
      apply h
      refine ⟨n / (m + 1) + 1, ?_⟩
      rw [Nat.mul_succ]
      omega
    have hkey : n + 1 = (m + 1) * (n / (m + 1)) + (n % (m + 1) + 1) := by omega
    rw [hkey, Nat.mul_add_mod, Nat.mod_eq_of_lt (by omega)]

/-- Closed form of one epoch of gradient accumulation: after `n` mini-batches
the accumulator holds `n % batchMult` unstepped gradients and the optimizer
has stepped `n / batchMult` times, each time on exactly `batchMult`
accumulated mini-batch gradients. -/
theorem gradLoop_closed_form (batchMult n : ℕ) :
    gradLoop batchMult n
      = (n % batchMult, List.replicate (n / batchMult) batchMult) := by
  induction n with
  | zero => simp [gradLoop]
  | succ n ih =>
    show accumStep batchMult (gradLoop batchMult n) n = _
    rw [ih]
    unfold accumStep
    simp only []
    by_cases h : (n + 1) % batchMult = 0
    · rw [if_pos h]
      have hdvd : batchMult ∣ n + 1 := Nat.dvd_of_mod_eq_zero h
      have hmod : n % batchMult + 1 = batchMult := mod_add_one_of_dvd batchMult n hdvd
      have hdiv : (n + 1) / batchMult = n / batchMult + 1 := Nat.succ_div_of_dvd hdvd
      rw [hdiv, h, List.replicate_succ']
      rw [hmod]
    · rw [if_neg h]
      have hndvd : ¬ batchMult ∣ n + 1 := fun hd => h (Nat.mod_eq_zero_of_dvd hd)
      rw [succ_mod_of_not_dvd batchMult n hndvd, Nat.succ_div_of_not_dvd hndvd]

/-- Mapping `x ↦ x / s + c` over a list sums to the scaled sum plus the
length times the constant. -/
theorem sum_map_div_add (l : List ℚ) (s c : ℚ) :
    (l.map (fun x => x / s + c)).sum = l.sum / s + (l.length : ℚ) * c := by
  induction l with
  | nil => simp
  | cons a t ih =>
    simp only [List.map_cons, List.sum_cons, ih, List.length_cons]
    push_cast
    ring

/-- Decoding an encoded JSON array of numbers recovers the list. -/
theorem decodeNumList_map (l : List ℚ) :
    decodeNumList (l.map JValue.jnum) = some l := by
  induction l with
  | nil => rfl
  | cons a t ih => simp [decodeNumList, ih]

/-- Decoding an encoded JSON class dictionary recovers the dictionary. -/
theorem decodeClassDict_map (l : List (String × ℤ)) :
    decodeClassDict (l.map (fun p => (p.1, JValue.jint p.2))) = some l := by
  induction l with
  | nil => rfl
  | cons a t ih =>
    obtain ⟨s, k⟩ := a
    simp [decodeClassDict, ih]

/-! ## Claim theorems -/

/-- C1 (counterexample): for the DICE+BOUNDARY policy, the loss computed at
`epoch == switchEpoch` is NOT in general the pure GeneralizedDice loss with
the configured GDL class weights of the same predictions and ground truth:
on the concrete two-pixel input `cexProbs`/`cexGt`, with the GDL weights
computed by `gdlWeights` from the class-weight vector `[1/4, 1/2, 1/4]`, the
value at the switch epoch (the plain Dice loss, `1/2`) differs from the
weighted GeneralizedDice value used for every earlier epoch. -/
theorem diceBoundary_at_switch_cex :
    diceBoundaryLoss 8 8
        (generalized_dice_loss 2 cexW cexProbs cexGt) (dice_loss 2 cexProbs cexGt) 0
      ≠ generalized_dice_loss 2 cexW cexProbs cexGt := by
  norm_num [diceBoundaryLoss, generalized_dice_loss, dice_loss, cexProbs, cexGt, cexW,
    gdlWeights, Fin.sum_univ_two, List.getD_cons_zero, List.getD_cons_succ,
    Fin.val_zero, Fin.val_one]

/-- C1 (amended): for the DICE+BOUNDARY policy, the loss computed at
`epoch == switchEpoch` equals the plain (unweighted) Dice loss of the same
predictions and ground truth — the mixing coefficient is `1` so the boundary
term has coefficient `0` — and not the weighted GeneralizedDice loss that is
computed for every epoch strictly before the switch epoch. -/
theorem diceBoundary_at_switch (C es : ℕ) (w : Fin C → ℚ)
    (probs : List (Fin C → ℚ)) (gt : List (Fin C)) (surface : ℚ) :
    diceBoundaryLoss es es (generalized_dice_loss C w probs gt)
      (dice_loss C probs gt) surface = dice_loss C probs gt := by
  unfold diceBoundaryLoss
  rw [if_neg (lt_irrefl es)]
  simp only [sub_self, zero_div, sub_zero]
  rw [if_neg (by norm_num : ¬ (1 : ℚ) < 0)]
  ring

/-- C2: during a training run a checkpoint is written if and only if the
validation JaccardScore of the current validation pass strictly exceeds the
best JaccardScore seen so far; the tracked best score never decreases; and
the validation sequence `[0.40, 0.55, 0.50, 0.60]` produces exactly the
three checkpoint writes at `0.40`, `0.55` and `0.60`. -/
theorem checkpoint_iff_strict_improvement :
    (∀ (st : CheckpointState) (a j : ℚ),
        ((validationStep st a j).checkpointsWritten.length
            = st.checkpointsWritten.length + 1 ↔ st.bestJaccard < j)
        ∧ st.bestJaccard ≤ (validationStep st a j).bestJaccard)
    ∧ (runValidationPasses
          [(0, 2/5), (0, 11/20), (0, 1/2), (0, 3/5)]).checkpointsWritten
        = [2/5, 11/20, 3/5] := by
  constructor
  · intro st a j
    constructor
    · by_cases hb : st.bestJaccard < j
      · simp [validationStep, hb]
      · simp [validationStep, hb]
    · by_cases hb : st.bestJaccard < j
      · simp [validationStep, hb]; exact le_of_lt hb
      · simp [validationStep, hb]
  · norm_num [runValidationPasses, validationStep, initialCheckpointState]

/-- C3: evaluating a data source that yields zero batches fails with the
empty-split error (the division by the batch count at src/training.py line
123, which the spec names `EmptySplitError`) — it never returns a metrics
object, in particular never one whose accuracy would be `0/0`. -/
theorem evaluate_empty_split_raises (n : ℕ) (flag : Bool) :
    evaluateNetwork n [] flag = Except.error EvalError.emptySplit := rfl

/-- C4: for the DICE+BOUNDARY policy, at every epoch at least ten past the
switch epoch the mixing coefficient is clamped to `0` and the computed loss
is exactly `0.3` times the boundary (surface) loss of the same predictions
and ground truth. -/
theorem diceBoundary_after_decay (epochsSwitch epoch : ℕ) (gdl dice surface : ℚ)
    (h : epochsSwitch + 10 ≤ epoch) :
    diceBoundaryLoss epochsSwitch epoch gdl dice surface = (3 / 10) * surface := by
  have hns : ¬ epoch < epochsSwitch := by omega
  have hcast : ((epochsSwitch : ℚ) + 10) ≤ (epoch : ℚ) := by exact_mod_cast h
  unfold diceBoundaryLoss
  rw [if_neg hns]
  simp only []
  by_cases hlt : (1 : ℚ) - ((epoch : ℚ) - (epochsSwitch : ℚ)) / 10 < 0
  · rw [if_pos hlt]; ring
  · have hz : (1 : ℚ) - ((epoch : ℚ) - (epochsSwitch : ℚ)) / 10 = 0 := by
      have hle : (1 : ℚ) - ((epoch : ℚ) - (epochsSwitch : ℚ)) / 10 ≤ 0 := by linarith
      linarith [not_lt.mp hlt]
    rw [if_neg hlt, hz]; ring

/-- C4 (witness): the decayed loss evaluated at switch epoch 8, epoch 18. -/
theorem diceBoundary_after_decay_witness :
    8 + 10 ≤ 18 ∧ diceBoundaryLoss 8 18 1 2 5 = (3 / 10) * 5 :=
  ⟨by norm_num, diceBoundary_after_decay 8 18 1 2 5 (by norm_num)⟩

/-- C5 (counterexample): pixels whose true label is the ignore sentinel `-1`
DO contribute to the weighted Jaccard score computed from the flattened
true/predicted arrays: for a single batch with true labels `[-1, 0]` and
predictions `[0, 0]`, the evaluator computes JaccardScore `1/4`, while
excluding the ignore-labelled pixel would give `1`. -/
theorem ignore_pixels_affect_jaccard_cex :
    weightedJaccard [((-1 : ℤ), (0 : ℤ)), (0, 0)] = 1 / 4
    ∧ weightedJaccard [((0 : ℤ), (0 : ℤ))] = 1
    ∧ (∃ m l, evaluateNetwork 2 [⟨[-1, 0], [0, 0], 0⟩] false = Except.ok (m, l)
        ∧ m.jaccardScore = 1 / 4) := by
  refine ⟨?_, ?_, ?_⟩
  · norm_num [weightedJaccard, presentLabels, supportCount, labelJaccard, interCount,
      unionCount, List.dedup_cons_of_mem, List.dedup_cons_of_not_mem]
  · norm_num [weightedJaccard, presentLabels, supportCount, labelJaccard, interCount,
      unionCount, List.dedup_cons_of_mem, List.dedup_cons_of_not_mem]
  · have h1 : ¬ ([(⟨[-1, 0], [0, 0], 0⟩ : EvalBatch)] : List EvalBatch).length = 0 := by
      decide
    have hcm : cmTotal 2 (allPairs [(⟨[-1, 0], [0, 0], 0⟩ : EvalBatch)]) ≠ 0 := by decide
    simp only [evaluateNetwork]
    rw [if_neg h1, if_neg hcm]
    refine ⟨_, _, rfl, ?_⟩
    show (if false then (0 : ℚ)
        else weightedJaccard (allPairs [⟨[-1, 0], [0, 0], 0⟩])) = 1 / 4
    norm_num [allPairs, weightedJaccard, presentLabels, supportCount, labelJaccard,
      interCount, unionCount, List.dedup_cons_of_mem, List.dedup_cons_of_not_mem]

/-- C5 (amended): pixels whose true label is the ignore sentinel `-1` are
excluded from the cross-entropy loss and from every row and column of the
confusion matrix, but they are NOT excluded from the flattened true/predicted
label arrays of the split: the JaccardScore the evaluator returns is the
weighted Jaccard of all pixel pairs, ignore-labelled ones included. -/
theorem ignore_sentinel_amended :
    (∀ (n : ℕ) (pairs : List (ℤ × ℤ)) (p : ℤ) (i j : Fin n),
        confusionMatrix n (pairs ++ [(-1, p)]) i j = confusionMatrix n pairs i j)
    ∧ (∀ (w : ℤ → ℚ) (pixels : List (ℤ × ℚ)) (c : ℚ),
        crossEntropyLoss w (pixels ++ [(-1, c)]) = crossEntropyLoss w pixels)
    ∧ (∀ (n : ℕ) (batches : List EvalBatch),
        batches ≠ [] → cmTotal n (allPairs batches) ≠ 0 →
        ∃ m l, evaluateNetwork n batches false = Except.ok (m, l)
          ∧ m.jaccardScore = weightedJaccard (allPairs batches)) := by
  refine ⟨?_, ?_, ?_⟩
  · intro n pairs p i j
    unfold confusionMatrix
    rw [List.countP_append]
    have hne : ((-1 : ℤ) == ((i.val : ℕ) : ℤ)) = false := by
      simp only [beq_eq_false_iff_ne, ne_eq]
      intro hcontra
      have := Int.natCast_nonneg i.val
      omega
    simp [List.countP_cons, hne]
  · intro w pixels c
    unfold crossEntropyLoss
    simp [List.filter_append]
  · intro n batches hne hcm
    have h1 : ¬ batches.length = 0 := fun h0 => hne (List.length_eq_zero.mp h0)
    simp only [evaluateNetwork]
    rw [if_neg h1, if_neg hcm]
    exact ⟨_, _, rfl, rfl⟩

/-- C5 (witness): the evaluator on a concrete non-empty batch returns the
weighted Jaccard of all its pixel pairs. -/
theorem ignore_sentinel_amended_witness :
    ∃ m l, evaluateNetwork 2 [⟨[0, 1], [0, 1], 0⟩] false = Except.ok (m, l)
      ∧ m.jaccardScore = weightedJaccard (allPairs [⟨[0, 1], [0, 1], 0⟩]) :=
  ignore_sentinel_amended.2.2 2 [⟨[0, 1], [0, 1], 0⟩] (by decide) (by decide)

/-- C6: in every training epoch, an optimizer step followed by a gradient
reset happens exactly once every `batchMultiplier` consecutive mini-batches
and never on a partial accumulation: over `n` mini-batches the optimizer
steps exactly `n / batchMultiplier` times, every step consumes exactly
`batchMultiplier` accumulated mini-batch gradients, the residual partial
accumulation (`n % batchMultiplier` mini-batches) is never stepped; with
`batchMultiplier = 8` and 24 mini-batches the optimizer steps exactly three
times, once every 8 mini-batches. -/
theorem optimizer_step_every_batchMultiplier :
    (∀ (batchMult n : ℕ),
        gradLoop batchMult n
          = (n % batchMult, List.replicate (n / batchMult) batchMult))
    ∧ gradLoop 8 24 = (0, [8, 8, 8]) :=
  ⟨gradLoop_closed_form, by decide⟩

/-- C7 (counterexample): the class-weight vector used for the GeneralizedDice
loss does NOT sum to `1 + 1e-5`: for the full per-class weight vector
`[1/4, 1/4, 1/4, 1/4]` (four classes, three non-background), the computed
vector sums to `1 + 3e-5`, because the source adds `0.00001` to every entry
of the normalized vector rather than to its sum. -/
theorem gdlWeights_sum_cex :
    (gdlWeights [1/4, 1/4, 1/4, 1/4]).sum ≠ 1 + 1 / 100000 := by
  norm_num [gdlWeights]

/-- C7 (amended): the GDL class-weight vector is obtained by dropping the
background class (index 0), transforming each remaining weight as
`w_i = 1 / (1/weight_i)^2`, dividing by the sum, and then adding `1e-5` to
every entry — so whenever the transformed vector has nonzero sum, the
resulting vector sums to `1 + (numClasses - 1) * 1e-5`, not `1 + 1e-5`
(the two agree only when there is exactly one non-background class). -/
theorem gdlWeights_sum_amended (weights : List ℚ)
    (h : (((weights.drop 1).map (fun x => 1 / x)).map (fun x => 1 / (x * x))).sum ≠ 0) :
    (gdlWeights weights).sum = 1 + ((weights.drop 1).length : ℚ) * (1 / 100000) := by
  unfold gdlWeights
  rw [sum_map_div_add, List.length_map, List.length_map, div_self h]

/-- C7 (witness): the amended sum rule evaluated on the four-class weight
vector `[1/4, 1/4, 1/4, 1/4]`. -/
theorem gdlWeights_sum_amended_witness :
    ((([(1:ℚ)/4, 1/4, 1/4, 1/4].drop 1).map (fun x => 1 / x)).map
        (fun x => 1 / (x * x))).sum ≠ 0
    ∧ (gdlWeights [1/4, 1/4, 1/4, 1/4]).sum
        = 1 + (([(1:ℚ)/4, 1/4, 1/4, 1/4].drop 1).length : ℚ) * (1 / 100000) :=
  ⟨by norm_num, gdlWeights_sum_amended _ (by norm_num)⟩

/-- C8: `readClassifierInfo` on a file holding malformed JSON logs and
returns without raising and without populating any dataset field, but on a
MISSING file it raises: `open` throws `FileNotFoundError` before the
`try` block (whose handler only catches `json.JSONDecodeError`, even though
its log message reads `File not found (!)`). -/
theorem missing_file_raises_malformed_returns :
    readClassifierInfo ReadFile.missing emptyDatasetFields
        = Except.error PyError.fileNotFound
    ∧ readClassifierInfo ReadFile.malformed emptyDatasetFields
        = Except.ok emptyDatasetFields :=
  ⟨rfl, rfl⟩

/-- C9: writing classifier metadata with `writeClassifierInfo` and reading it
back with `readClassifierInfo` reproduces the number of classes, the
per-class weights, the per-channel dataset average and the class-name
dictionary exactly, for every record and in particular for the record
`{numClasses = 4, weights = [0.1, 0.2, 0.3, 0.4], average = [1, 2, 3],
classes = {A: 0, B: 1}}`. -/
theorem classifier_info_roundtrip :
    (∀ (nm : String) (r : ClassifierRecord) (ds : DatasetFields),
        readClassifierInfo (ReadFile.parsed (writeClassifierInfo nm r)) ds
          = Except.ok { num_classes := some r.numClasses,
                        weights := some r.weights,
                        dataset_average := some r.datasetAverage,
                        dict_target := some r.dictTarget })
    ∧ readClassifierInfo
          (ReadFile.parsed (writeClassifierInfo "GDL"
            { numClasses := 4, weights := [1/10, 2/10, 3/10, 4/10],
              datasetAverage := [1, 2, 3], dictTarget := [("A", 0), ("B", 1)] }))
          emptyDatasetFields
        = Except.ok { num_classes := some 4,
                      weights := some [1/10, 2/10, 3/10, 4/10],
                      dataset_average := some [1, 2, 3],
                      dict_target := some [("A", 0), ("B", 1)] } := by
  have main : ∀ (nm : String) (r : ClassifierRecord) (ds : DatasetFields),
      readClassifierInfo (ReadFile.parsed (writeClassifierInfo nm r)) ds
        = Except.ok { num_classes := some r.numClasses,
                      weights := some r.weights,
                      dataset_average := some r.datasetAverage,
                      dict_target := some r.dictTarget } := by
    intro nm r ds
    simp [readClassifierInfo, writeClassifierInfo, List.lookup,
      decodeNumList_map, decodeClassDict_map]
  exact ⟨main, main "GDL" _ _⟩

/-- C10: an evaluation pass invoked with `flagTrainingDataset = true` skips
the weighted Jaccard computation, leaves the true/predicted label buffers
empty, and returns a metrics object whose JaccardScore is exactly the
sentinel `0.0`, regardless of the predictions. -/
theorem training_flag_jaccard_sentinel :
    (∀ (n : ℕ) (batches : List EvalBatch),
        batches ≠ [] → cmTotal n (allPairs batches) ≠ 0 →
        ∃ m l, evaluateNetwork n batches true = Except.ok (m, l)
          ∧ m.jaccardScore = 0)
    ∧ ∀ batches, evalBuffers batches true = ([], []) := by
  constructor
  · intro n batches hne hcm
    have h1 : ¬ batches.length = 0 := fun h0 => hne (List.length_eq_zero.mp h0)
    simp only [evaluateNetwork]
    rw [if_neg h1, if_neg hcm]
    exact ⟨_, _, rfl, rfl⟩
  · intro batches
    rfl

/-- C10 (witness): the sentinel JaccardScore on a concrete one-batch pass. -/
theorem training_flag_jaccard_sentinel_witness :
    ∃ m l, evaluateNetwork 1 [⟨[0], [0], 0⟩] true = Except.ok (m, l)
      ∧ m.jaccardScore = 0 :=
  training_flag_jaccard_sentinel.1 1 [⟨[0], [0], 0⟩] (by decide) (by decide)
